import Mathlib

/-!
Shallow embedding of the traffic-agent pipeline (src/agent/core/brain.py,
src/agent/models/models.py, src/agent/exceptions/exceptions.py).

Python dictionaries are modelled as association lists (first binding wins),
Python floats as rationals, Python ints as integers.  Exceptions are
modelled by the `Except` monad over an explicit error type `AgentError`
that distinguishes the error classes the code can raise or let escape:
`PlanningError`, `AnalysisError`, pydantic `ValidationError`, Python
`KeyError` / `IndexError`, `NotImplementedError`, and tenacity's
`RetryError` (the tenacity `retry` decorator is used without
`reraise=True`, so an attempt budget exhausted on `stop_after_attempt(3)`
raises `tenacity.RetryError`, not the last underlying exception).
-/

inductive AgentError where
  | planningError (msg : String)
  | analysisError (msg : String)
  | validationError (msg : String)
  | keyError (key : String)
  | indexError
  | retryError
  | notImplementedError (msg : String)
  deriving DecidableEq, Repr

instance {ε α : Type} [DecidableEq ε] [DecidableEq α] : DecidableEq (Except ε α) :=
  fun a b =>
    match a, b with
    | .ok x, .ok y => decidable_of_iff (x = y) (by simp)
    | .error x, .error y => decidable_of_iff (x = y) (by simp)
    | .ok _, .error _ => isFalse (by simp)
    | .error _, .ok _ => isFalse (by simp)

/-- `Plan` (src/agent/models/models.py): challenges / factors / steps. -/
structure Plan where
  challenges : List String
  factors : List String
  steps : List String
  deriving DecidableEq, Repr

/-- `TrafficScenario` (src/agent/models/models.py). -/
structure TrafficScenario where
  intersection_type : String
  lanes : List (String × Int)
  peak_traffic : List (String × Rat)
  special_conditions : List String
  time_of_day : String
  deriving DecidableEq, Repr

/-- `SignalTiming` (src/agent/models/models.py). -/
structure SignalTiming where
  phase_timings : List (String × Int)
  turn_signal_timings : Option (List (String × Int))
  cycle_length : Int
  priority_phases : List String
  reasoning : String
  deriving DecidableEq, Repr

/-- The raw JSON object parsed from the timing LLM response
(`function_args` in `analyze_with_plan`): every field may be absent. -/
structure TimingDict where
  phase_timings : Option (List (String × Int))
  turn_signal_timings : Option (List (String × Int))
  cycle_length : Option Int
  priority_phases : Option (List String)
  reasoning : Option String
  deriving DecidableEq, Repr

/-- Python `d.get(k, default)` on a string-keyed dict of floats. -/
def dictGetD (d : List (String × Rat)) (k : String) (v0 : Rat) : Rat :=
  match d.find? (fun p => p.1 == k) with
  | some p => p.2
  | none => v0

/-- Python `d[k]` on a string-keyed dict of ints, as an `Option`. -/
def lookupInt (d : List (String × Int)) (k : String) : Option Int :=
  (d.find? (fun p => p.1 == k)).map (fun p => p.2)

/-- Python `k in d.keys()`. -/
def hasKey (d : List (String × Int)) (k : String) : Bool :=
  (lookupInt d k).isSome

/-- Python `sum(d.values())`. -/
def sumValues (d : List (String × Int)) : Int :=
  d.foldl (fun acc p => acc + p.2) 0

/-- `max(scenario.peak_traffic.get("north", 0), scenario.peak_traffic.get("south", 0))`
(brain.py lines 207-209). -/
def nsVolume (sc : TrafficScenario) : Rat :=
  max (dictGetD sc.peak_traffic ("north") 0) (dictGetD sc.peak_traffic ("south") 0)

/-- `max(scenario.peak_traffic.get("east", 0), scenario.peak_traffic.get("west", 0))`
(brain.py lines 210-212). -/
def ewVolume (sc : TrafficScenario) : Rat :=
  max (dictGetD sc.peak_traffic ("east") 0) (dictGetD sc.peak_traffic ("west") 0)

/-- The message of the proportionality violation (brain.py line 218). -/
def proportionalityMsg : String :=
  "Phase timings do not properly account for traffic volumes"

/-- `TrafficAgent._validate_timing_logic` (brain.py lines 186-229), with the
checks in source order: presence of `phase_timings`; the two required keys;
sum of phase timings equals `cycle_length` (a missing `cycle_length` key
raises `KeyError` at line 201); the busier-axis rule (fires only when the
north-south volume is strictly greater); the 15-second minimum per phase;
the 180-second cycle maximum. -/
def validate_timing_logic (td : TimingDict) (sc : TrafficScenario) :
    Except AgentError Unit :=
  match td.phase_timings with
  | none => .error (.analysisError ("No phase timings provided"))
  | some pt =>
    if !(hasKey pt ("north-south") && hasKey pt ("east-west")) then
      .error (.analysisError ("Missing required phase timings for main directions"))
    else
      match td.cycle_length with
      | none => .error (.keyError ("cycle_length"))
      | some cl =>
        if sumValues pt ≠ cl then
          .error (.analysisError ("Cycle length does not match sum of phase timings"))
        else
          match lookupInt pt ("north-south"), lookupInt pt ("east-west") with
          | some nsT, some ewT =>
            if nsVolume sc > ewVolume sc ∧ nsT ≤ ewT then
              .error (.analysisError (proportionalityMsg))
            else
              match pt.find? (fun p => decide (p.2 < 15)) with
              | some p =>
                .error (.analysisError ("Phase timing for " ++ p.1 ++ " is below minimum safe time"))
              | none =>
                if cl > 180 then
                  .error (.analysisError ("Cycle length exceeds maximum recommended duration"))
                else
                  .ok ()
          | _, _ => .error (.keyError ("phase_timings"))

/-- pydantic construction `SignalTiming(**timing_dict)` (models.py lines
23-30): the four required fields must be present, `turn_signal_timings`
is optional with default `None`. -/
def signalTimingOfDict (td : TimingDict) : Except AgentError SignalTiming :=
  match td.phase_timings, td.cycle_length, td.priority_phases, td.reasoning with
  | some pt, some cl, some pp, some r =>
    .ok ⟨pt, td.turn_signal_timings, cl, pp, r⟩
  | _, _, _, _ => .error (.validationError ("field required"))

/-- `TrafficAgent._check_minimum_timings` (brain.py lines 242-255). -/
def check_minimum_timings (t : SignalTiming) : Except AgentError Unit :=
  match t.phase_timings.find? (fun p => decide (p.2 < 15)) with
  | some p =>
    .error (.analysisError ("Phase " ++ p.1 ++ " timing too short: minimum 15 seconds required"))
  | none =>
    if t.cycle_length < 60 ∨ t.cycle_length > 180 then
      .error (.analysisError ("Cycle length outside acceptable range (60-180 seconds)"))
    else
      .ok ()

/-- The deterministic part of the timing validation pipeline run by
`analyze_with_plan` (brain.py lines 172-177): `_validate_timing_logic`,
then `SignalTiming` construction, then `_check_minimum_timings`
(the LLM-backed `_verify_plan_addressed` call is handled separately). -/
def validateTiming (td : TimingDict) (sc : TrafficScenario) :
    Except AgentError SignalTiming := do
  validate_timing_logic td sc
  let t ← signalTimingOfDict td
  check_minimum_timings t
  pure t

/-! ## Retry wrapper (tenacity)

Both `_create_single_plan` and `analyze_with_plan` carry
`@retry(stop=stop_after_attempt(3), wait=wait_exponential(min=1, max=10))`.
tenacity retries on every exception; with the default `reraise=False`,
once the third attempt fails it raises `tenacity.RetryError` (wrapping the
last exception), not the underlying exception itself.  A call is modelled
by the list of its successive attempt outcomes. -/

/-- Run attempts in order: the first success is returned; if the attempt
budget is exhausted, tenacity raises `RetryError`. -/
def retryRun {α : Type} : List (Except AgentError α) → Except AgentError α
  | [] => .error .retryError
  | r :: rs =>
    match r with
    | .ok a => .ok a
    | .error _ => retryRun rs

/-- `@retry(stop=stop_after_attempt(3), ...)`: at most three attempts. -/
def retry3 {α : Type} (attempts : List (Except AgentError α)) : Except AgentError α :=
  retryRun (attempts.take 3)

/-! ## Plan generation and selection -/

/-- One raw attempt of `_create_single_plan` (brain.py lines 52-77): the
LLM call either yields a `Plan` or raises, and every raised exception is
converted to a `PlanningError` inside the function body (lines 72-77).
The attempt outcome is therefore `Except String Plan`, the `String` being
the `PlanningError` message. -/
def singlePlanAttempt (r : Except String Plan) : Except AgentError Plan :=
  match r with
  | .ok p => .ok p
  | .error m => .error (.planningError m)

/-- `_create_single_plan` as called (its `retry` decorator applied to the
list of raw attempt outcomes supplied by the environment). -/
def create_single_plan (attempts : List (Except String Plan)) : Except AgentError Plan :=
  retry3 (attempts.map singlePlanAttempt)

/-- The parsed plan-selection LLM response seen by `_select_best_plan`:
`json.loads` may fail (`JSONDecodeError`), `selection["selected_index"]`
may fail (`KeyError`), the call itself may raise some other exception,
or an integer index is produced. -/
inductive SelResponse where
  | parseFailure
  | missingKey
  | otherFailure (msg : String)
  | index (i : Int)
  deriving DecidableEq, Repr

/-- `TrafficAgent._select_best_plan` (brain.py lines 98-133).
`JSONDecodeError` / `KeyError` / `IndexError` are caught and the first
plan is returned (line 131); an out-of-range index raises `PlanningError`
at line 125, which the generic `except Exception` handler at line 132
re-raises as `PlanningError`; any other exception is likewise wrapped
into a `PlanningError`. -/
def select_best_plan (plans : List Plan) (resp : SelResponse) : Except AgentError Plan :=
  match resp with
  | .parseFailure =>
    match plans with
    | p :: _ => .ok p
    | [] => .error .indexError
  | .missingKey =>
    match plans with
    | p :: _ => .ok p
    | [] => .error .indexError
  | .otherFailure m => .error (.planningError ("Error in plan selection: " ++ m))
  | .index i =>
    if 0 ≤ i ∧ i < plans.length then
      match plans.get? i.toNat with
      | some p => .ok p
      | none => .error .indexError
    else
      .error (.planningError ("Error in plan selection: Invalid plan index"))

/-- The generation loop of `_create_plan` (brain.py lines 83-86):
`for _ in range(3): plans.append(self._create_single_plan(scenario))`.
Returns the plans accumulated so far and, if a slot aborted the loop,
the exception that escaped it (per `create_single_plan`, always
`RetryError`). -/
def runGenLoop (gens : List (List (Except String Plan))) :
    List Plan × Option AgentError :=
  ((gens ++ [[], [], []]).take 3).foldl
    (fun st slot =>
      match st.2 with
      | some _ => st
      | none =>
        match create_single_plan slot with
        | .ok p => (st.1 ++ [p], none)
        | .error e => (st.1, some e))
    ([], none)

/-- `TrafficAgent._create_plan` (brain.py lines 79-96).  The
`except PlanningError` handler (line 92) catches only `PlanningError`:
when it fires with a non-empty `plans` list the first plan is returned,
with an empty list it raises `PlanningError`; any other exception
(in particular tenacity `RetryError` from an exhausted generation slot)
propagates to the caller uncaught. -/
def create_plan (gens : List (List (Except String Plan))) (sel : SelResponse) :
    Except AgentError Plan :=
  match runGenLoop gens with
  | (plans, some e) =>
    match e with
    | .planningError _ =>
      match plans with
      | p :: _ => .ok p
      | [] => .error (.planningError ("Failed to create any valid plans"))
    | _ => .error e
  | (plans, none) =>
    match select_best_plan plans sel with
    | .ok p => .ok p
    | .error (.planningError _) =>
      match plans with
      | p :: _ => .ok p
      | [] => .error (.planningError ("Failed to create any valid plans"))
    | .error e => .error e

/-! ## Plan-coverage verification -/

/-- One entry of the `verifications` array of the parsed
`verify_plan_coverage` response (tools.py lines 80-122). -/
structure VerificationItem where
  element : String
  element_type : String
  is_addressed : Bool
  confidence : Rat
  explanation : String
  deriving DecidableEq, Repr

/-- The `overall_assessment` object of the parsed response. -/
structure OverallAssessment where
  is_sufficient : Bool
  missing_elements : List String
  recommendations : String
  deriving DecidableEq, Repr

/-- The parsed `verify_plan_coverage` response (`results` in brain.py
line 296). -/
structure VerificationResults where
  verifications : List VerificationItem
  overall_assessment : OverallAssessment
  deriving DecidableEq, Repr

/-- `critical_misses` (brain.py lines 299-303): items not addressed with
confidence strictly above 0.8. -/
def critical_misses (rs : VerificationResults) : List VerificationItem :=
  rs.verifications.filter (fun v => !v.is_addressed && decide (v.confidence > 0.8))

/-- The decision of `_verify_plan_addressed` (brain.py lines 296-317)
before the outer exception wrap: raise `AnalysisError` when there is a
critical miss or the overall assessment is insufficient. -/
def verifyDecision (rs : VerificationResults) : Except AgentError Unit :=
  if critical_misses rs ≠ [] ∨ rs.overall_assessment.is_sufficient = false then
    .error (.analysisError ("Timing recommendations incomplete"))
  else
    .ok ()

/-- `TrafficAgent._verify_plan_addressed` (brain.py lines 257-320): the
`AnalysisError` raised inside the `try` block is itself caught by the
`except Exception` handler at line 319 and re-raised as an
`AnalysisError` prefixed with "Error in plan verification". -/
def verify_plan_addressed (rs : VerificationResults) : Except AgentError Unit :=
  match verifyDecision rs with
  | .ok _ => .ok ()
  | .error _ => .error (.analysisError ("Error in plan verification: Timing recommendations incomplete"))

/-! ## Timing analysis and the top-level pipeline -/

/-- The inputs one attempt of `analyze_with_plan` draws from its two LLM
round trips: the parsed timing payload (or a JSON decode failure), and
the parsed plan-coverage verification response used by
`_verify_plan_addressed`. -/
structure AnalysisAttemptInput where
  timing_response : Except Unit TimingDict
  verification : VerificationResults
  deriving DecidableEq, Repr

/-- Message wrap of the `except` chain of `analyze_with_plan` (brain.py
lines 179-184): `ValidationError` becomes "Invalid timing structure",
everything else falls to the generic handler. -/
def analysisWrapMsg : AgentError → String
  | .validationError _ => "Invalid timing structure"
  | _ => "Unexpected error in analysis"

/-- One attempt of `analyze_with_plan` (brain.py lines 136-184) on given
round-trip inputs: parse the payload, run `_validate_timing_logic`,
construct the `SignalTiming`, run `_check_minimum_timings` and
`_verify_plan_addressed`; every exception becomes an `AnalysisError`. -/
def analyzeAttempt (sc : TrafficScenario) (inp : AnalysisAttemptInput) :
    Except AgentError SignalTiming :=
  match inp.timing_response with
  | .error _ => .error (.analysisError ("Failed to parse LLM response"))
  | .ok td =>
    match (do
        validate_timing_logic td sc
        let t ← signalTimingOfDict td
        check_minimum_timings t
        verify_plan_addressed inp.verification
        pure t : Except AgentError SignalTiming) with
    | .ok t => .ok t
    | .error e => .error (.analysisError (analysisWrapMsg e))

/-- `analyze_with_plan` as called (its `retry` decorator applied to the
list of per-attempt round-trip inputs supplied by the environment). -/
def analyze_with_plan (sc : TrafficScenario) (attempts : List AnalysisAttemptInput) :
    Except AgentError SignalTiming :=
  retry3 (attempts.map (analyzeAttempt sc))

/-- `TrafficAgent._fallback_analysis` (brain.py lines 339-344): raises
`NotImplementedError`. -/
def fallback_analysis (_sc : TrafficScenario) : Except AgentError SignalTiming :=
  .error (.notImplementedError ("Fallback analysis not implemented yet"))

/-- `TrafficAgent.analyze_scenario` (brain.py lines 323-337): run
`_create_plan` then `analyze_with_plan`; `except (PlanningError,
AnalysisError)` routes to `_fallback_analysis`; every other exception
(in particular tenacity `RetryError`) propagates to the caller. -/
def analyze_scenario (sc : TrafficScenario)
    (gens : List (List (Except String Plan))) (sel : SelResponse)
    (attempts : List AnalysisAttemptInput) : Except AgentError SignalTiming :=
  match (do
      let _plan ← create_plan gens sel
      analyze_with_plan sc attempts : Except AgentError SignalTiming) with
  | .ok t => .ok t
  | .error (.planningError _) => fallback_analysis sc
  | .error (.analysisError _) => fallback_analysis sc
  | .error e => .error e

/-! ## Agent state -/

/-- The mutable state of a `TrafficAgent` instance relevant to the
context history: `self.context_history` (brain.py line 29). -/
structure AgentState where
  context_history : List (TrafficScenario × SignalTiming)
  deriving DecidableEq, Repr

/-- `TrafficAgent.__init__` (brain.py lines 27-29): the history starts
empty. -/
def TrafficAgent_init : AgentState :=
  ⟨[]⟩

/-- `analyze_scenario` viewed as a state transformer on the agent
instance: the method body (brain.py lines 323-337) reads `self` but
never assigns to `self.context_history`, so the state passes through
unchanged. -/
def analyze_scenario_run (st : AgentState) (sc : TrafficScenario)
    (gens : List (List (Except String Plan))) (sel : SelResponse)
    (attempts : List AnalysisAttemptInput) :
    Except AgentError SignalTiming × AgentState :=
  (analyze_scenario sc gens sel attempts, st)

/-! ## pydantic construction of `TrafficScenario` -/

/-- The raw keyword arguments offered to the `TrafficScenario`
constructor: each declared field may be absent. -/
structure RawScenarioInput where
  intersection_type : Option String
  lanes : Option (List (String × Int))
  peak_traffic : Option (List (String × Rat))
  special_conditions : Option (List String)
  time_of_day : Option String
  deriving DecidableEq, Repr

/-- pydantic validation of `TrafficScenario(**kwargs)` (models.py lines
11-20): each of the five declared fields must be present and of its
declared type; no other constraint (in particular no non-emptiness or
cross-field check) is applied. -/
def trafficScenarioConstruct (raw : RawScenarioInput) :
    Except AgentError TrafficScenario :=
  match raw.intersection_type, raw.lanes, raw.peak_traffic,
      raw.special_conditions, raw.time_of_day with
  | some it, some ln, some pk, some scn, some tod =>
    .ok ⟨it, ln, pk, scn, tod⟩
  | _, _, _, _, _ => .error (.validationError ("field required"))

/-! ## Concrete inputs used by witnesses and counterexamples -/

def planA : Plan := ⟨[("c1")], [("f1")], [("s1")]⟩

def planB : Plan := ⟨[("c2")], [("f2")], [("s2")]⟩

def planC : Plan := ⟨[("c3")], [("f3")], [("s3")]⟩

/-- A scenario with equal (zero) peak volumes on both axes. -/
def scEqVol : TrafficScenario := ⟨("4-way"), [], [], [], ("am")⟩

/-- A scenario whose east-west axis is strictly busier. -/
def scEastBusy : TrafficScenario := ⟨("4-way"), [], [(("east"), 1)], [], ("am")⟩

/-- A scenario whose north-south axis is strictly busier. -/
def scNorthBusy : TrafficScenario :=
  ⟨("4-way"), [(("north"), 2)], [(("north"), 1)], [], ("am")⟩

/-- A verification response with no items and a sufficient assessment. -/
def verZero : VerificationResults := ⟨[], ⟨true, [], ("ok")⟩⟩

/-- Symmetric 50/50 phase timings. -/
def tdSym : TimingDict :=
  ⟨some [(("north-south"), 50), (("east-west"), 50)], none, some 100, some [], some ("r")⟩

def stSym : SignalTiming :=
  ⟨[(("north-south"), 50), (("east-west"), 50)], none, 100, [], ("r")⟩

/-- The timing payload of the end-to-end example (60/40, cycle 100). -/
def tdGoodNS : TimingDict :=
  ⟨some [(("north-south"), 60), (("east-west"), 40)], none, some 100,
    some [("north-south")], some ("r")⟩

def stGoodNS : SignalTiming :=
  ⟨[(("north-south"), 60), (("east-west"), 40)], none, 100, [("north-south")], ("r")⟩

def tdCl181 : TimingDict :=
  ⟨some [(("north-south"), 91), (("east-west"), 90)], none, some 181, some [], some ("r")⟩

def tdCl180 : TimingDict :=
  ⟨some [(("north-south"), 90), (("east-west"), 90)], none, some 180, some [], some ("r")⟩

def stCl180 : SignalTiming :=
  ⟨[(("north-south"), 90), (("east-west"), 90)], none, 180, [], ("r")⟩

def tdPh15 : TimingDict :=
  ⟨some [(("north-south"), 45), (("east-west"), 15)], none, some 60, some [], some ("r")⟩

def tdPh14 : TimingDict :=
  ⟨some [(("north-south"), 46), (("east-west"), 14)], none, some 60, some [], some ("r")⟩

/-- A payload whose phase timings sum to 90 but whose cycle length is 100. -/
def tdMismatch : TimingDict :=
  ⟨some [(("north-south"), 50), (("east-west"), 40)], none, some 100, some [], some ("r")⟩

/-- A payload with cycle length 200 (sum matches), rejected by the
180-second cap. -/
def tdCl200 : TimingDict :=
  ⟨some [(("north-south"), 100), (("east-west"), 100)], none, some 200, some [], some ("r")⟩

/-- Phase timings with an extra pedestrian phase, all at least 15,
summing to 130, but with the north-south phase not above east-west. -/
def ptExtra : List (String × Int) :=
  [(("north-south"), 15), (("east-west"), 100), (("pedestrian"), 15)]

def tdExtra : TimingDict := ⟨some ptExtra, none, some 130, some [], some ("r")⟩

/-- Phase timings with an extra pedestrian phase that satisfy every rule
for a north-south-busier scenario. -/
def ptExtraOK : List (String × Int) :=
  [(("north-south"), 60), (("east-west"), 40), (("pedestrian"), 20)]

def tdExtraOK : TimingDict := ⟨some ptExtraOK, none, some 120, some [], some ("r")⟩

def stExtraOK : SignalTiming := ⟨ptExtraOK, none, 120, [], ("r")⟩

/-- Three generation slots that each succeed on their first attempt. -/
def gensOK : List (List (Except String Plan)) :=
  [[.ok planA], [.ok planB], [.ok planC]]

/-- Slot one succeeds, slot two fails all three of its retry attempts. -/
def gensOnePlan : List (List (Except String Plan)) :=
  [[.ok planA],
   [.error ("bad json"), .error ("bad json"), .error ("bad json")],
   [.ok planC]]

/-- Slot one already fails all three of its retry attempts. -/
def gensNoPlan : List (List (Except String Plan)) :=
  [[.error ("bad json"), .error ("bad json"), .error ("bad json")],
   [.ok planB], [.ok planC]]

/-- An analysis attempt whose payload violates the 180-second cycle cap. -/
def attemptBad : AnalysisAttemptInput := ⟨.ok tdCl200, verZero⟩

/-- An analysis attempt that passes every validation step. -/
def attemptGood : AnalysisAttemptInput := ⟨.ok tdGoodNS, verZero⟩

/-! ## Helper lemmas -/

theorem except_bind_ok {ε α β : Type} {x : Except ε α} {f : α → Except ε β} {b : β} :
    (x >>= f) = .ok b ↔ ∃ a, x = .ok a ∧ f a = .ok b := by
  cases x <;> simp [Bind.bind, Except.bind]

theorem validateTiming_ok_elim {td : TimingDict} {sc : TrafficScenario}
    {t : SignalTiming} (h : validateTiming td sc = .ok t) :
    validate_timing_logic td sc = .ok () ∧ signalTimingOfDict td = .ok t ∧
      check_minimum_timings t = .ok () := by
  unfold validateTiming at h
  simp only [except_bind_ok] at h
  obtain ⟨u, h1, t', h2, v, h3, h4⟩ := h
  simp only [pure, Except.pure, Except.ok.injEq] at h4
  cases u
  exact ⟨h1, h4 ▸ h2, h4 ▸ (by cases v; exact h3)⟩

theorem signalTimingOfDict_ok_elim {td : TimingDict} {t : SignalTiming}
    (h : signalTimingOfDict td = .ok t) :
    td.phase_timings = some t.phase_timings ∧ td.cycle_length = some t.cycle_length := by
  unfold signalTimingOfDict at h
  split at h
  · simp only [Except.ok.injEq] at h
    subst h
    simp_all
  · exact absurd h (by simp)

theorem check_minimum_timings_ok_elim {t : SignalTiming}
    (h : check_minimum_timings t = .ok ()) :
    (∀ p ∈ t.phase_timings, 15 ≤ p.2) ∧ 60 ≤ t.cycle_length ∧ t.cycle_length ≤ 180 := by
  unfold check_minimum_timings at h
  split at h
  · exact absurd h (by simp)
  next hfind =>
    split at h
    · exact absurd h (by simp)
    next hcl =>
      push_neg at hcl
      refine ⟨?_, by omega, by omega⟩
      intro p hp
      have := List.find?_eq_none.mp hfind p hp
      simpa using this

theorem validate_timing_logic_ok_elim {td : TimingDict} {sc : TrafficScenario}
    (h : validate_timing_logic td sc = .ok ()) :
    ∃ pt cl, td.phase_timings = some pt ∧ td.cycle_length = some cl ∧
      hasKey pt ("north-south") = true ∧ hasKey pt ("east-west") = true ∧
      sumValues pt = cl ∧
      (∀ a b, lookupInt pt ("north-south") = some a →
        lookupInt pt ("east-west") = some b →
        nsVolume sc > ewVolume sc → b < a) ∧
      (∀ p ∈ pt, 15 ≤ p.2) ∧ cl ≤ 180 := by
  unfold validate_timing_logic at h
  split at h
  · exact absurd h (by simp)
  next pt hpt =>
    split at h
    · exact absurd h (by simp)
    next hkeys =>
      rw [Bool.not_eq_true', Bool.and_eq_false_iff] at hkeys
      push_neg at hkeys
      split at h
      · exact absurd h (by simp)
      next cl hcl =>
        split at h
        · exact absurd h (by simp)
        next hsum =>
          push_neg at hsum
          split at h
          next nsT ewT hns hew =>
            split at h
            · exact absurd h (by simp)
            next hprop =>
              push_neg at hprop
              split at h
              · exact absurd h (by simp)
              next hfind =>
                split at h
                · exact absurd h (by simp)
                next hcl180 =>
                  push_neg at hcl180
                  refine ⟨pt, cl, hpt, hcl, ?_, ?_, hsum, ?_, ?_, hcl180⟩
                  · simp [hasKey, hns]
                  · simp [hasKey, hew]
                  · intro a b ha hb hvol
                    rw [hns] at ha
                    rw [hew] at hb
                    cases ha
                    cases hb
                    have := hprop hvol
                    omega
                  · intro p hp
                    have := List.find?_eq_none.mp hfind p hp
                    simpa using this
          next h1 h2 =>
            exact absurd h (by simp)

theorem validate_timing_logic_ok_intro {td : TimingDict} {sc : TrafficScenario}
    {pt : List (String × Int)} {cl a b : Int}
    (hpt : td.phase_timings = some pt) (hcl : td.cycle_length = some cl)
    (hns : lookupInt pt ("north-south") = some a)
    (hew : lookupInt pt ("east-west") = some b)
    (hsum : sumValues pt = cl)
    (hprop : nsVolume sc > ewVolume sc → b < a)
    (h15 : ∀ p ∈ pt, 15 ≤ p.2)
    (h180 : cl ≤ 180) :
    validate_timing_logic td sc = .ok () := by
  have hfind : pt.find? (fun p => decide (p.2 < 15)) = none := by
    rw [List.find?_eq_none]
    intro p hp
    simpa using not_lt.mpr (h15 p hp)
  have hk1 : hasKey pt ("north-south") = true := by simp [hasKey, hns]
  have hk2 : hasKey pt ("east-west") = true := by simp [hasKey, hew]
  simp only [validate_timing_logic, hpt, hcl, hk1, hk2, hns, hew, hfind,
    Bool.and_self, Bool.not_true, Bool.false_eq_true, if_false, hsum]
  rw [if_neg (by simp), if_neg ?_, if_neg (by omega)]
  intro hcon
  exact absurd hcon.2 (not_le.mpr (hprop hcon.1))

theorem check_minimum_timings_ok_intro {t : SignalTiming}
    (h15 : ∀ p ∈ t.phase_timings, 15 ≤ p.2)
    (h60 : 60 ≤ t.cycle_length) (h180 : t.cycle_length ≤ 180) :
    check_minimum_timings t = .ok () := by
  have hfind : t.phase_timings.find? (fun p => decide (p.2 < 15)) = none := by
    rw [List.find?_eq_none]
    intro p hp
    simpa using not_lt.mpr (h15 p hp)
  simp only [check_minimum_timings, hfind]
  rw [if_neg (by omega)]

theorem validateTiming_ok_intro {td : TimingDict} {sc : TrafficScenario}
    {pt : List (String × Int)} {cl a b : Int} {pp : List String} {r : String}
    (hpt : td.phase_timings = some pt) (hcl : td.cycle_length = some cl)
    (hpp : td.priority_phases = some pp) (hr : td.reasoning = some r)
    (hns : lookupInt pt ("north-south") = some a)
    (hew : lookupInt pt ("east-west") = some b)
    (hsum : sumValues pt = cl)
    (hprop : nsVolume sc > ewVolume sc → b < a)
    (h15 : ∀ p ∈ pt, 15 ≤ p.2)
    (h60 : 60 ≤ cl) (h180 : cl ≤ 180) :
    validateTiming td sc = .ok ⟨pt, td.turn_signal_timings, cl, pp, r⟩ := by
  have h1 : validate_timing_logic td sc = .ok () :=
    validate_timing_logic_ok_intro hpt hcl hns hew hsum hprop h15 h180
  have h2 : signalTimingOfDict td = .ok ⟨pt, td.turn_signal_timings, cl, pp, r⟩ := by
    simp [signalTimingOfDict, hpt, hcl, hpp, hr]
  have h3 : check_minimum_timings
      (⟨pt, td.turn_signal_timings, cl, pp, r⟩ : SignalTiming) = .ok () :=
    check_minimum_timings_ok_intro h15 h60 h180
  unfold validateTiming
  simp only [except_bind_ok]
  exact ⟨(), h1, ⟨pt, td.turn_signal_timings, cl, pp, r⟩, h2, (), h3, rfl⟩

/-! ## Claim theorems -/

/-- C1 (counterexample to the claim as stated): for the scenario whose
east-west axis is strictly busier (east volume 1, north-south volume 0)
the validation pipeline accepts symmetric 50/50 phase timings, so the
accepted timing does not satisfy the claimed strict inequality
`phase_timings["east-west"] > phase_timings["north-south"]`. -/
theorem C1_counterexample :
    validateTiming tdSym scEastBusy = .ok stSym ∧
    ewVolume scEastBusy > nsVolume scEastBusy ∧
    (∀ a b, lookupInt stSym.phase_timings ("east-west") = some a →
      lookupInt stSym.phase_timings ("north-south") = some b → ¬ b < a) := by
  refine ⟨rfl, by decide, ?_⟩
  intro a b ha hb
  have e1 : lookupInt stSym.phase_timings ("east-west") = some (50 : Int) := rfl
  have e2 : lookupInt stSym.phase_timings ("north-south") = some (50 : Int) := rfl
  rw [e1] at ha
  rw [e2] at hb
  cases ha
  cases hb
  omega

/-- C1 (amended): `_validate_timing_logic` enforces the busier-axis rule
in one direction only.  (i) If a payload is accepted and the north-south
peak volume is strictly greater than the east-west one, then the
north-south phase timing strictly exceeds the east-west one.  (ii) When
the two axis volumes are equal the proportionality rule never fires: a
payload passing all remaining checks is accepted whatever the ordering
of its two phase timings. -/
theorem C1_busier_axis_amended :
    (∀ td sc t, validateTiming td sc = .ok t →
      nsVolume sc > ewVolume sc →
      ∀ a b, lookupInt t.phase_timings ("north-south") = some a →
        lookupInt t.phase_timings ("east-west") = some b → b < a) ∧
    (∀ (td : TimingDict) (sc : TrafficScenario) pt cl a b,
      nsVolume sc = ewVolume sc →
      td.phase_timings = some pt → td.cycle_length = some cl →
      lookupInt pt ("north-south") = some a →
      lookupInt pt ("east-west") = some b →
      sumValues pt = cl → (∀ p ∈ pt, 15 ≤ p.2) → cl ≤ 180 →
      validate_timing_logic td sc = .ok ()) := by
  constructor
  · intro td sc t h hvol a b ha hb
    obtain ⟨h1, h2, _⟩ := validateTiming_ok_elim h
    obtain ⟨hpt, _⟩ := signalTimingOfDict_ok_elim h2
    obtain ⟨pt, cl, hpt', _, _, _, _, hprop, _, _⟩ := validate_timing_logic_ok_elim h1
    rw [hpt] at hpt'
    cases hpt'
    exact hprop a b ha hb hvol
  · intro td sc pt cl a b hvol hpt hcl hns hew hsum h15 h180
    refine validate_timing_logic_ok_intro hpt hcl hns hew hsum ?_ h15 h180
    intro hgt
    rw [hvol] at hgt
    exact absurd hgt (lt_irrefl _)

/-- Witness for C1: the 60/40 end-to-end payload accepted for the
north-south-busier scenario instantiates part (i) at a concrete input. -/
theorem C1_witness : (40 : Int) < 60 :=
  C1_busier_axis_amended.1 tdGoodNS scNorthBusy stGoodNS rfl (by decide) 60 40 rfl rfl

/-- C2: `_validate_timing_logic` accepts a payload only if the sum of its
phase timings is exactly its cycle length, and a payload carrying both
fields whose sum differs from the cycle length is rejected with an
`AnalysisError`. -/
theorem C2_sum_equals_cycle :
    (∀ td sc, validate_timing_logic td sc = .ok () →
      ∃ pt cl, td.phase_timings = some pt ∧ td.cycle_length = some cl ∧
        sumValues pt = cl) ∧
    (∀ (td : TimingDict) (sc : TrafficScenario) pt cl,
      td.phase_timings = some pt → td.cycle_length = some cl →
      sumValues pt ≠ cl →
      ∃ m, validate_timing_logic td sc = .error (.analysisError m)) := by
  constructor
  · intro td sc h
    obtain ⟨pt, cl, hpt, hcl, _, _, hsum, _, _, _⟩ := validate_timing_logic_ok_elim h
    exact ⟨pt, cl, hpt, hcl, hsum⟩
  · intro td sc pt cl hpt hcl hne
    cases hk : (hasKey pt ("north-south") && hasKey pt ("east-west")) with
    | false =>
      refine ⟨("Missing required phase timings for main directions"), ?_⟩
      simp [validate_timing_logic, hpt, hcl, hk]
    | true =>
      refine ⟨("Cycle length does not match sum of phase timings"), ?_⟩
      simp [validate_timing_logic, hpt, hcl, hk, hne]

/-- Witness for C2: the 50+40 payload with declared cycle length 100 is
rejected. -/
theorem C2_witness :
    ∃ m, validate_timing_logic tdMismatch scEqVol = .error (.analysisError m) :=
  C2_sum_equals_cycle.2 tdMismatch scEqVol
    [(("north-south"), 50), (("east-west"), 40)] 100 rfl rfl (by decide)

/-- C3: every payload accepted by the deterministic validation pipeline
(`_validate_timing_logic` followed by `SignalTiming` construction and
`_check_minimum_timings`) has all phase timings at least 15 seconds and
a cycle length in the inclusive band [60, 180]; at the boundaries,
cycle length 181 is rejected and 180 accepted, and a phase timing of
exactly 15 is accepted while 14 is rejected. -/
theorem C3_accepted_bounds :
    (∀ td sc t, validateTiming td sc = .ok t →
      (∀ p ∈ t.phase_timings, 15 ≤ p.2) ∧
        60 ≤ t.cycle_length ∧ t.cycle_length ≤ 180) ∧
    (validateTiming tdCl181 scEqVol).isOk = false ∧
    (validateTiming tdCl180 scEqVol).isOk = true ∧
    (validateTiming tdPh15 scEqVol).isOk = true ∧
    (validateTiming tdPh14 scEqVol).isOk = false := by
  refine ⟨?_, rfl, rfl, rfl, rfl⟩
  intro td sc t h
  obtain ⟨_, _, h3⟩ := validateTiming_ok_elim h
  exact check_minimum_timings_ok_elim h3

/-- Witness for C3: the accepted boundary payload with cycle length 180
instantiates the bound statement at a concrete input. -/
theorem C3_witness :
    (∀ p ∈ stCl180.phase_timings, 15 ≤ p.2) ∧
      60 ≤ stCl180.cycle_length ∧ stCl180.cycle_length ≤ 180 :=
  C3_accepted_bounds.1 tdCl180 scEqVol stCl180 rfl

/-- C4: once the generation loop has produced a non-empty batch of plans
without error, a plan-selection response that is structurally unparsable
(bad JSON or missing key) or carries an out-of-range index makes
`_create_plan` return the first generated plan, and no error reaches its
caller: the unparsable cases are caught inside `_select_best_plan`
itself, and the out-of-range case raises a `PlanningError` that the
`except PlanningError` handler of `_create_plan` converts into the same
first-plan fallback. -/
theorem C4_selection_fallback :
    ∀ (gens : List (List (Except String Plan))) (p0 : Plan) (rest : List Plan)
      (sel : SelResponse),
      runGenLoop gens = (p0 :: rest, none) →
      (sel = .parseFailure ∨ sel = .missingKey ∨
        (∃ i, sel = .index i ∧ ¬(0 ≤ i ∧ i < (p0 :: rest).length))) →
      create_plan gens sel = .ok p0 := by
  intro gens p0 rest sel hrun hsel
  unfold create_plan
  rw [hrun]
  rcases hsel with rfl | rfl | ⟨i, rfl, hi⟩
  · rfl
  · rfl
  · have hs : select_best_plan (p0 :: rest) (.index i) =
        .error (.planningError ("Error in plan selection: Invalid plan index")) := by
      simp only [select_best_plan]
      rw [if_neg hi]
    simp [hs]

/-- Witness for C4: with three successfully generated plans and the
out-of-range selected index 5, the pipeline returns the first plan. -/
theorem C4_witness : create_plan gensOK (.index 5) = .ok planA :=
  C4_selection_fallback gensOK planA [planB, planC] (.index 5) rfl
    (Or.inr (Or.inr ⟨5, rfl, by decide⟩))

/-- C5: `_verify_plan_addressed` raises an `AnalysisError` whenever some
verification item is unaddressed with confidence strictly above 0.8 or
the overall assessment is insufficient; an unaddressed item whose
confidence is exactly 0.8 is not a critical miss. -/
theorem C5_verification_failure :
    (∀ rs : VerificationResults,
      ((∃ v ∈ rs.verifications, v.is_addressed = false ∧ v.confidence > 0.8) ∨
        rs.overall_assessment.is_sufficient = false) →
      ∃ m, verify_plan_addressed rs = .error (.analysisError m)) ∧
    (∀ rs : VerificationResults, ∀ v ∈ rs.verifications,
      v.confidence = 0.8 → v ∉ critical_misses rs) := by
  constructor
  · intro rs hbad
    refine ⟨("Error in plan verification: Timing recommendations incomplete"), ?_⟩
    have hdec : verifyDecision rs =
        .error (.analysisError ("Timing recommendations incomplete")) := by
      unfold verifyDecision
      rw [if_pos]
      rcases hbad with ⟨v, hv, hna, hc⟩ | hins
      · left
        apply List.ne_nil_of_mem (a := v)
        unfold critical_misses
        rw [List.mem_filter]
        exact ⟨hv, by simp [hna, hc]⟩
      · right
        exact hins
    unfold verify_plan_addressed
    rw [hdec]
  · intro rs v hv hconf hmem
    unfold critical_misses at hmem
    have h2 := (List.mem_filter.mp hmem).2
    rw [hconf] at h2
    simp at h2

/-- Witness for C5: a single unaddressed item with confidence 0.9 makes
the verification step fail. -/
theorem C5_witness :
    ∃ m, verify_plan_addressed
      ⟨[⟨("e"), ("challenge"), false, 0.9, ("x")⟩], ⟨true, [], ("ok")⟩⟩ =
      .error (.analysisError m) :=
  C5_verification_failure.1
    ⟨[⟨("e"), ("challenge"), false, 0.9, ("x")⟩], ⟨true, [], ("ok")⟩⟩
    (Or.inl ⟨⟨("e"), ("challenge"), false, 0.9, ("x")⟩, by simp, rfl, by norm_num⟩)

/-- C6 (evaluation at the failing input): when one of the three
generation slots exhausts its tenacity retries, `_create_plan` does not
return the plans produced so far and does not raise a `PlanningError`:
tenacity raises `RetryError` (its default `reraise=False`), which the
`except PlanningError` handler at brain.py line 92 does not catch, so
`RetryError` propagates to the caller whether or not earlier slots had
already produced plans. -/
theorem C6_retry_error_eval :
    create_plan gensOnePlan (.index 0) = .error .retryError ∧
    create_plan gensOnePlan (.index 0) ≠ .ok planA ∧
    create_plan gensNoPlan (.index 0) = .error .retryError ∧
    (∀ m, AgentError.retryError ≠ AgentError.planningError m) :=
  ⟨rfl, by decide, rfl, fun m => by simp⟩

/-- C7 (evaluation at the failing input): when every retry attempt of
`analyze_with_plan` fails timing validation (an `AnalysisError` inside
each attempt), tenacity turns the exhausted budget into `RetryError`,
which the `except (PlanningError, AnalysisError)` handler of
`analyze_scenario` does not catch: the caller receives `RetryError`
directly and `_fallback_analysis` (which would raise
`NotImplementedError`) is never invoked. -/
theorem C7_retry_error_surfaces :
    analyzeAttempt scEqVol attemptBad =
      .error (.analysisError ("Unexpected error in analysis")) ∧
    analyze_scenario scEqVol gensOK (.index 0) [attemptBad, attemptBad, attemptBad] =
      .error .retryError ∧
    fallback_analysis scEqVol =
      .error (.notImplementedError ("Fallback analysis not implemented yet")) ∧
    analyze_scenario scEqVol gensOK (.index 0) [attemptBad, attemptBad, attemptBad] ≠
      fallback_analysis scEqVol :=
  ⟨rfl, rfl, rfl, by decide⟩

/-- C8 (counterexample to the claim as stated): a fully successful
`analyze_scenario` run leaves `context_history` empty — no
`{scenario, recommendation}` pair is appended. -/
theorem C8_counterexample :
    (analyze_scenario_run TrafficAgent_init scNorthBusy gensOK (.index 0)
      [attemptGood]).1 = .ok stGoodNS ∧
    (analyze_scenario_run TrafficAgent_init scNorthBusy gensOK (.index 0)
      [attemptGood]).2.context_history = [] ∧
    (analyze_scenario_run TrafficAgent_init scNorthBusy gensOK (.index 0)
      [attemptGood]).2.context_history ≠ [(scNorthBusy, stGoodNS)] :=
  ⟨rfl, rfl, by decide⟩

/-- C8 (amended): `analyze_scenario` never modifies the agent state, so
the `context_history` list initialized empty in `__init__` stays
unchanged (in particular it never grows) across invocations. -/
theorem C8_history_unchanged :
    (∀ st sc gens sel attempts,
      (analyze_scenario_run st sc gens sel attempts).2 = st) ∧
    TrafficAgent_init.context_history = [] :=
  ⟨fun _ _ _ _ _ => rfl, rfl⟩

/-- C9: `TrafficScenario` construction succeeds whenever all five fields
are present with their declared types; in particular it succeeds with
empty `lanes`, `peak_traffic` and `special_conditions` (the invalid
scenario of `test_error_handling`), since no cross-field or
non-emptiness invariant is checked. -/
theorem C9_construction_total :
    (∀ it ln pk scn tod,
      trafficScenarioConstruct ⟨some it, some ln, some pk, some scn, some tod⟩ =
        .ok ⟨it, ln, pk, scn, tod⟩) ∧
    trafficScenarioConstruct
      ⟨some ("invalid"), some [], some [], some [], some ("invalid_time")⟩ =
      .ok ⟨("invalid"), [], [], [], ("invalid_time")⟩ :=
  ⟨fun _ _ _ _ _ => rfl, rfl⟩

/-- C10 (counterexample to the claim as stated): for the
north-south-busier scenario, a payload with an extra pedestrian phase
satisfying every proviso of the claim (all timings at least 15, total
sum equal to a cycle length inside [60, 180]) is still rejected, because
the busier-axis rule also has to hold. -/
theorem C10_counterexample :
    (∀ p ∈ ptExtra, 15 ≤ p.2) ∧
    hasKey ptExtra ("pedestrian") = true ∧
    sumValues ptExtra = 130 ∧
    tdExtra.cycle_length = some 130 ∧
    (60 : Int) ≤ 130 ∧ (130 : Int) ≤ 180 ∧
    validateTiming tdExtra scNorthBusy = .error (.analysisError proportionalityMsg) := by
  refine ⟨by decide, rfl, rfl, rfl, by norm_num, by norm_num, rfl⟩

/-- C10 (amended): the structural check only requires the two main
directions to be present among the phase timings, so a payload with any
further phase names (e.g. a pedestrian phase) is accepted provided every
phase timing (extras included) is at least 15, the sum over all phases
(extras included) equals the cycle length, the cycle length lies in
[60, 180], and the busier-axis rule holds for the scenario. -/
theorem C10_extras_accepted_amended :
    ∀ (sc : TrafficScenario) (td : TimingDict) pt cl a b pp r,
      td.phase_timings = some pt → td.cycle_length = some cl →
      td.priority_phases = some pp → td.reasoning = some r →
      lookupInt pt ("north-south") = some a →
      lookupInt pt ("east-west") = some b →
      (∀ p ∈ pt, 15 ≤ p.2) → sumValues pt = cl →
      60 ≤ cl → cl ≤ 180 →
      (nsVolume sc > ewVolume sc → b < a) →
      validateTiming td sc = .ok ⟨pt, td.turn_signal_timings, cl, pp, r⟩ := by
  intro sc td pt cl a b pp r hpt hcl hpp hr hns hew h15 hsum h60 h180 hprop
  exact validateTiming_ok_intro hpt hcl hpp hr hns hew hsum hprop h15 h60 h180

/-- Witness for C10: the 60/40/20 payload with a pedestrian phase is
accepted for the north-south-busier scenario. -/
theorem C10_witness : validateTiming tdExtraOK scNorthBusy = .ok stExtraOK :=
  C10_extras_accepted_amended scNorthBusy tdExtraOK ptExtraOK 120 60 40 [] ("r")
    rfl rfl rfl rfl rfl rfl (by decide) rfl (by norm_num) (by norm_num)
    (fun _ => by norm_num)
